import Mathlib

/-!
Shallow embedding of `geocoder-control.directive.ts` from
`projects/ngx-mapbox-gl-geocoder-control` (the `GeocoderControlDirective`
adapter around the Mapbox geocoder widget).

The directive translates Angular inputs into the widget's constructor
options (stripping `undefined`-valued keys and resolving the access token
with a `||` fallback), guards against double attachment of a control,
registers event forwarders only for observed output channels, deduplicates
the upstream `result` event by result id, defers an initial `searchInput`
query to the map-loaded notification, and forwards later `proximity` /
`searchInput` changes from `ngOnChanges` into the live widget.
-/

namespace NgxGeocoder

/-- A JavaScript runtime value, at the granularity the directive needs:
`undefined` and `null` are distinct, and objects (functions, map handles,
markers, coordinate pairs, bbox tuples) are opaque tagged handles. -/
inductive JsVal where
  | undef
  | nullv
  | bool (b : Bool)
  | num (n : Int)
  | str (s : String)
  | obj (tag : String)
deriving DecidableEq, Repr

/-- JavaScript truthiness of a `JsVal` (floats do not occur here). -/
def JsVal.truthy : JsVal → Bool
  | .undef => false
  | .nullv => false
  | .bool b => b
  | .num n => n != 0
  | .str s => s != ""
  | .obj _ => true

/-- The JavaScript `||` operator: the left operand when truthy, otherwise
the right operand. Used for `this.accessToken || this.MAPBOX_GEOCODER_API_KEY`. -/
def jsOr (a b : JsVal) : JsVal :=
  if a.truthy then a else b

/-- The type of the `marker` input, `boolean | Marker` in the source; its
declared default is `false`, so it can never hold `undefined`. -/
inductive MarkerVal where
  | bool (b : Bool)
  | marker (tag : String)
deriving DecidableEq, Repr

/-- Embedding of a `MarkerVal` into the JavaScript value space. -/
def MarkerVal.toJs : MarkerVal → JsVal
  | .bool b => .bool b
  | .marker t => .obj t

/-- The directive's input bindings at attachment time. All optional inputs
are plain `JsVal`s (an unbound input is `undefined`); `marker` carries the
source's `boolean | Marker` type, and `searchInput : string` is `Option`
so that an unbound field reads as absent. -/
structure GeocoderInputs where
  proximity : JsVal
  countries : JsVal
  placeholder : JsVal
  zoom : JsVal
  bbox : JsVal
  types : JsVal
  flyTo : JsVal
  minLength : JsVal
  limit : JsVal
  language : JsVal
  filter : JsVal
  localGeocoder : JsVal
  accessToken : JsVal
  mapboxgl : JsVal
  marker : MarkerVal
  searchInput : Option String
deriving DecidableEq, Repr

/-- The `options` object literal built in `ngAfterContentInit` (lines
108–124), in source order, before undefined-key stripping. `apiKey` is the
injected `MAPBOX_GEOCODER_API_KEY` default credential. -/
def buildOptions (i : GeocoderInputs) (apiKey : JsVal) : List (String × JsVal) :=
  [("proximity", i.proximity),
   ("countries", i.countries),
   ("placeholder", i.placeholder),
   ("zoom", i.zoom),
   ("bbox", i.bbox),
   ("types", i.types),
   ("flyTo", i.flyTo),
   ("minLength", i.minLength),
   ("limit", i.limit),
   ("language", i.language),
   ("filter", i.filter),
   ("localGeocoder", i.localGeocoder),
   ("accessToken", jsOr i.accessToken apiKey),
   ("mapboxgl", i.mapboxgl),
   ("marker", i.marker.toJs)]

/-- The `Object.keys(options).forEach(... delete ...)` loop (lines 126–131):
every key whose value is `undefined` is removed from the options object. -/
def strippedOptions (i : GeocoderInputs) (apiKey : JsVal) : List (String × JsVal) :=
  (buildOptions i apiKey).filter (fun kv => kv.2 != JsVal.undef)

/-- The constructed external widget, identified by the options object it
received (`new MapboxGeocoder(options)`, line 132). -/
structure MapboxGeocoder where
  options : List (String × JsVal)
deriving DecidableEq, Repr

/-- One cons step of looking a key up in an undefined-stripped association
list: a head entry survives the strip and answers the lookup exactly when
its value is defined and its key matches. -/
theorem lookup_filter_undef_cons (k k' : String) (v : JsVal)
    (t : List (String × JsVal)) :
    (((k', v) :: t).filter (fun kv => kv.2 != JsVal.undef)).lookup k =
      (if v ≠ JsVal.undef ∧ k = k' then some v
       else (t.filter (fun kv => kv.2 != JsVal.undef)).lookup k) := by
  by_cases hv : v = JsVal.undef
  · subst hv
    simp [List.filter_cons]
  · have hp : (((k', v) : String × JsVal).2 != JsVal.undef) = true := by
      simpa using hv
    rw [List.filter_cons, if_pos hp]
    by_cases hk : k = k'
    · subst hk
      simp [List.lookup, hv]
    · have : (k == k') = false := by simpa using hk
      simp [List.lookup, this, hk]

/-- The access token the stripped options expose: present iff
`accessToken || apiKey` resolved to a defined value. -/
theorem lookup_accessToken (i : GeocoderInputs) (apiKey : JsVal) :
    (strippedOptions i apiKey).lookup "accessToken" =
      (if jsOr i.accessToken apiKey = JsVal.undef then none
       else some (jsOr i.accessToken apiKey)) := by
  unfold strippedOptions buildOptions
  simp only [lookup_filter_undef_cons]
  by_cases hv : jsOr i.accessToken apiKey = JsVal.undef <;> simp [hv, List.lookup]

/-- The stripped options always expose the `marker` key, with the embedded
value of the `marker` input. -/
theorem lookup_marker (i : GeocoderInputs) (apiKey : JsVal) :
    (strippedOptions i apiKey).lookup "marker" = some i.marker.toJs := by
  unfold strippedOptions buildOptions
  simp only [lookup_filter_undef_cons]
  cases i.marker <;> simp [MarkerVal.toJs]

/-- Which outward `EventEmitter` channels currently have a subscriber
(`.observed` in the source): the five current-name channels plus the three
deprecated aliases `results`, `result`, `error`. -/
structure Observed where
  clear : Bool
  loading : Bool
  results : Bool
  result : Bool
  error : Bool
  geocoderResults : Bool
  geocoderResult : Bool
  geocoderError : Bool
deriving DecidableEq, Repr

/-- The widget-event registrations `hookEvents` performs (lines 163–201):
one `geocoder.on(kind, ...)` call per event kind whose guard finds at least
one observed outward channel, in source order. -/
def hookedEvents (events : Observed) : List String :=
  (if events.results || events.geocoderResults then ["results"] else []) ++
  (if events.geocoderResult || events.result then ["result"] else []) ++
  (if events.error || events.geocoderError then ["error"] else []) ++
  (if events.loading then ["loading"] else []) ++
  (if events.clear then ["clear"] else [])

/-- The five widget event kinds `hookEvents` can subscribe to. -/
def widgetEventKinds : List String := ["results", "result", "error", "loading", "clear"]

/-- Whether a given outward channel has a subscriber. -/
def channelObserved (events : Observed) : String → Bool
  | "clear" => events.clear
  | "loading" => events.loading
  | "results" => events.results
  | "result" => events.result
  | "error" => events.error
  | "geocoderResults" => events.geocoderResults
  | "geocoderResult" => events.geocoderResult
  | "geocoderError" => events.geocoderError
  | _ => false

/-- The outward channels fed by each widget event kind: three kinds have a
current name plus a deprecated alias, `loading` and `clear` only the
current name. -/
def kindChannels : String → List String
  | "results" => ["results", "geocoderResults"]
  | "result" => ["geocoderResult", "result"]
  | "error" => ["error", "geocoderError"]
  | "loading" => ["loading"]
  | "clear" => ["clear"]
  | _ => []

/-- A widget event kind is observed when some outward channel it feeds has
a subscriber. -/
def kindObserved (events : Observed) (kind : String) : Bool :=
  (kindChannels kind).any (channelObserved events)

/-- One upstream `result` event against the retained `lastResultId`
(lines 173–184): when the incoming id differs from the retained one, the
id is retained and the event forwarded; otherwise it is dropped. The
retained id starts out `undefined`. -/
def resultStep (lastResultId : JsVal) (id : JsVal) : JsVal × Bool :=
  if lastResultId ≠ id then (id, true) else (lastResultId, false)

/-- Fold `resultStep` over a sequence of upstream `result`-event ids,
recording for each event whether the registered handler forwarded it. -/
def resultRun (lastResultId : JsVal) : List JsVal → List Bool
  | [] => []
  | id :: rest =>
    let s := resultStep lastResultId id
    s.2 :: resultRun s.1 rest

/-- Per-event forwarding decisions for a sequence of upstream `result`
events after attachment: the handler is registered only under the guard
`geocoderResult.observed || result.observed`; unregistered means no event
is ever forwarded. The retained id starts as `undefined`. -/
def resultForwards (events : Observed) (ids : List JsVal) : List Bool :=
  if events.geocoderResult || events.result then resultRun JsVal.undef ids
  else ids.map fun _ => false

/-- The outward channels on which subscribers actually receive one
forwarded `result` event: the handler emits on `geocoderResult` then
`result`, and an emission reaches subscribers only on observed channels. -/
def resultDeliveredChannels (events : Observed) (forwarded : Bool) : List String :=
  if forwarded then
    (if events.geocoderResult then ["geocoderResult"] else []) ++
    (if events.result then ["result"] else [])
  else []

/-- Per-event outward deliveries for a sequence of upstream `result` events. -/
def resultEmissions (events : Observed) (ids : List JsVal) : List (List String) :=
  (resultForwards events ids).map (resultDeliveredChannels events)

/-- The adapter's mutable state: the host `ControlComponent`'s control
slot, the directive's `geocoder` field, the widget-event registrations
made so far, and the retained last result id. -/
structure AdapterState where
  controlSlot : Option MapboxGeocoder
  geocoder : Option MapboxGeocoder
  registrations : List String
  lastResultId : JsVal
deriving DecidableEq, Repr

/-- Initial adapter state: empty slot, no widget, no registrations,
`lastResultId` undefined. -/
def AdapterState.init : AdapterState :=
  { controlSlot := none, geocoder := none, registrations := [], lastResultId := JsVal.undef }

/-- The map-created handler subscribed in `ngAfterContentInit` (lines
105–135): if the control slot is occupied it throws (returning the state
untouched together with the error message); otherwise it builds and strips
the options, constructs the widget, registers the forwarders (`hookEvents`)
and stores the widget in the control slot (`addControl`). -/
def onMapCreated (i : GeocoderInputs) (apiKey : JsVal) (events : Observed)
    (st : AdapterState) : AdapterState × Option String :=
  if st.controlSlot.isSome then
    (st, some "Another control is already set for this control")
  else
    let g : MapboxGeocoder := { options := strippedOptions i apiKey }
    ({ st with
        geocoder := some g
        registrations := hookedEvents events
        controlSlot := some g },
     none)

/-- A call the directive makes into the live widget. -/
inductive WidgetCall where
  | setProximity (v : JsVal)
  | query (s : Option String)
deriving DecidableEq, Repr

/-- An Angular `SimpleChange` record, with `isFirstChange()` as a flag:
it is `true` exactly on the change that supplies the property's initial
value. -/
structure SimpleChange where
  previousValue : JsVal
  currentValue : JsVal
  firstChange : Bool
deriving DecidableEq, Repr

/-- The `SimpleChanges` map restricted to the two live-updatable inputs the
source inspects: a change record is present for an input exactly when this
notification altered it. -/
structure DirectiveChanges where
  proximity : Option SimpleChange
  searchInput : Option SimpleChange
deriving DecidableEq, Repr

/-- `ngOnChanges` (lines 142–153): no-op before attachment (`this.geocoder`
unset); otherwise forward a non-first proximity change via `setProximity`
with its `currentValue`, and any searchInput change via `query` with the
current `searchInput` field value. Returns the widget calls made, in order. -/
def ngOnChanges (geocoder : Option MapboxGeocoder) (searchInput : Option String)
    (changes : DirectiveChanges) : List WidgetCall :=
  match geocoder with
  | none => []
  | some _ =>
    (match changes.proximity with
     | some c => if !c.firstChange then [WidgetCall.setProximity c.currentValue] else []
     | none => []) ++
    (match changes.searchInput with
     | some _ => [WidgetCall.query searchInput]
     | none => [])

/-- One notification from the map service's two lifecycle streams. -/
inductive RunEv where
  | created
  | loaded
deriving DecidableEq, Repr

/-- `if (this.searchInput)` (line 136): the directive subscribes to the
map-loaded stream only when `searchInput` is truthy at init time. -/
def subscribesInitialQuery : Option String → Bool
  | some s => s != ""
  | none => false

/-- Modelled from the spec: the map service's map-loaded stream (the
`mapLoaded$` member of `MapService`, which lives in the `ngx-mapbox-gl`
package outside this source tree) is "a second stream fired once the map
has finished loading" — it delivers a single notification to each
subscriber, namely the first time the underlying map reports loaded.
This function folds a run of lifecycle notifications, emitting for each
one the number of `geocoder.query(this.searchInput)` calls the initial
query subscription (line 137–139) performs: one on the delivered
map-loaded notification when subscribed, zero otherwise. -/
def initialQueryRun (subscribed : Bool) : Bool → List RunEv → List Nat
  | _, [] => []
  | delivered, RunEv.created :: rest => 0 :: initialQueryRun subscribed delivered rest
  | delivered, RunEv.loaded :: rest =>
    if subscribed && !delivered then 1 :: initialQueryRun subscribed true rest
    else 0 :: initialQueryRun subscribed delivered rest

/-- Initial-query calls over a run, from the directive's init-time state. -/
def initialQueryCalls (searchInput : Option String) (run : List RunEv) : List Nat :=
  initialQueryRun (subscribesInitialQuery searchInput) false run

/-- A fully default input record: no binding on any optional input,
`marker` at its declared default `false`, `searchInput` unset. -/
def allUndefInputs : GeocoderInputs :=
  { proximity := JsVal.undef
    countries := JsVal.undef
    placeholder := JsVal.undef
    zoom := JsVal.undef
    bbox := JsVal.undef
    types := JsVal.undef
    flyTo := JsVal.undef
    minLength := JsVal.undef
    limit := JsVal.undef
    language := JsVal.undef
    filter := JsVal.undef
    localGeocoder := JsVal.undef
    accessToken := JsVal.undef
    mapboxgl := JsVal.undef
    marker := MarkerVal.bool false
    searchInput := none }

/-- Once the single map-loaded notification has been delivered, the
initial-query subscription issues no further query calls. -/
theorem initialQueryRun_sum_delivered (b : Bool) (r : List RunEv) :
    (initialQueryRun b true r).sum = 0 := by
  induction r with
  | nil => rfl
  | cons ev rest ih => cases ev <;> simp [initialQueryRun, ih]

/-- On a run segment with no map-loaded notification, the initial-query
subscription issues no query calls. -/
theorem initialQueryRun_sum_of_not_loaded (b d : Bool) (r : List RunEv)
    (h : RunEv.loaded ∉ r) : (initialQueryRun b d r).sum = 0 := by
  induction r generalizing d with
  | nil => rfl
  | cons ev rest ih =>
    cases ev with
    | created =>
      simp only [initialQueryRun, List.sum_cons, Nat.zero_add]
      exact ih d fun hm => h (by simp [hm])
    | loaded => exact absurd (by simp) h

/-- A subscribed initial query is issued exactly once on any run that
contains a map-loaded notification. -/
theorem initialQueryRun_sum_of_loaded (r : List RunEv) (h : RunEv.loaded ∈ r) :
    (initialQueryRun true false r).sum = 1 := by
  induction r with
  | nil => cases h
  | cons ev rest ih =>
    cases ev with
    | created =>
      have hm : RunEv.loaded ∈ rest := by
        rcases List.mem_cons.mp h with h' | h'
        · cases h'
        · exact h'
      simp [initialQueryRun, ih hm]
    | loaded => simp [initialQueryRun, initialQueryRun_sum_delivered]

/-- C1: after attachment, with at least one subscriber on the
`geocoderResult` or legacy `result` channel, the upstream `result`
sequence id-X, id-X, id-Y is forwarded exactly as first-occurrence-per-id:
forward, drop, forward; and with a subscriber only on legacy `result`,
each forwarded event is delivered once on `result` and never on
`geocoderResult`. -/
theorem geocoder_result_dedup (events : Observed) (X Y : JsVal)
    (hobs : (events.geocoderResult || events.result) = true)
    (hX : X ≠ JsVal.undef) (hXY : X ≠ Y) :
    resultForwards events [X, X, Y] = [true, false, true] ∧
    (events.result = true → events.geocoderResult = false →
      resultEmissions events [X, X, Y] = [["result"], [], ["result"]]) := by
  have h1 : JsVal.undef ≠ X := fun h => hX h.symm
  constructor
  · simp [resultForwards, hobs, resultRun, resultStep, h1, hXY]
  · intro hr hgr
    simp [resultEmissions, resultForwards, resultRun, resultStep,
      resultDeliveredChannels, hobs, h1, hXY, hr, hgr]

/-- Witness for `geocoder_result_dedup`: a subscriber only on the legacy
`result` channel, ids "a", "a", "b". -/
theorem geocoder_result_dedup_witness :
    resultEmissions ⟨false, false, false, true, false, false, false, false⟩
        [JsVal.str "a", JsVal.str "a", JsVal.str "b"] =
      [["result"], [], ["result"]] :=
  (geocoder_result_dedup ⟨false, false, false, true, false, false, false, false⟩
    (JsVal.str "a") (JsVal.str "b") (by decide) (by decide) (by decide)).2 rfl rfl

/-- C2: a map-created notification arriving while the control slot is
already occupied makes the attachment handler throw
"Another control is already set for this control" and leave the adapter
state untouched: no widget is constructed, no forwarder is registered,
and the slot keeps its previous occupant. -/
theorem double_attach_fatal (i : GeocoderInputs) (apiKey : JsVal)
    (events : Observed) (st : AdapterState) (h : st.controlSlot.isSome) :
    onMapCreated i apiKey events st =
      (st, some "Another control is already set for this control") := by
  simp [onMapCreated, h]

/-- Witness for `double_attach_fatal`: a state whose slot already holds a
widget. -/
theorem double_attach_fatal_witness :
    onMapCreated allUndefInputs JsVal.undef
        ⟨false, false, false, false, false, false, false, false⟩
        { controlSlot := some { options := [] }, geocoder := none,
          registrations := [], lastResultId := JsVal.undef } =
      ({ controlSlot := some { options := [] }, geocoder := none,
         registrations := [], lastResultId := JsVal.undef },
       some "Another control is already set for this control") :=
  double_attach_fatal allUndefInputs JsVal.undef
    ⟨false, false, false, false, false, false, false, false⟩ _ (by decide)

/-- C3: every key surviving into the options object handed to the widget
constructor carries a defined value — `undefined`-valued keys are all
removed by the stripping loop. -/
theorem options_no_undefined (i : GeocoderInputs) (apiKey : JsVal)
    (kv : String × JsVal) (h : kv ∈ strippedOptions i apiKey) :
    kv.2 ≠ JsVal.undef := by
  have := List.of_mem_filter h
  simpa using this

/-- Witness for `options_no_undefined`: with no inputs bound, the `marker`
entry survives and is defined. -/
theorem options_no_undefined_witness :
    ("marker", JsVal.bool false) ∈ strippedOptions allUndefInputs JsVal.undef ∧
      ("marker", JsVal.bool false).2 ≠ JsVal.undef :=
  ⟨by decide, options_no_undefined allUndefInputs JsVal.undef _ (by decide)⟩

/-- C4: with a truthy `searchInput` at init time, the initial query is
issued to the widget zero times on any run segment in which map-loaded has
not fired, and exactly once on any run in which map-loaded fires one or
more times. -/
theorem initial_query_deferred_once (s : String) (hs : s ≠ "") (r : List RunEv) :
    (RunEv.loaded ∉ r → (initialQueryCalls (some s) r).sum = 0) ∧
    (RunEv.loaded ∈ r → (initialQueryCalls (some s) r).sum = 1) := by
  have hsub : subscribesInitialQuery (some s) = true := by
    simpa [subscribesInitialQuery] using hs
  unfold initialQueryCalls
  rw [hsub]
  exact ⟨fun h => initialQueryRun_sum_of_not_loaded true false r h,
    fun h => initialQueryRun_sum_of_loaded r h⟩

/-- Witness for `initial_query_deferred_once`: no query before map-loaded,
one query in total even when map-loaded fires twice. -/
theorem initial_query_deferred_once_witness :
    (initialQueryCalls (some "town") [RunEv.created]).sum = 0 ∧
      (initialQueryCalls (some "town")
        [RunEv.created, RunEv.loaded, RunEv.loaded]).sum = 1 :=
  ⟨(initial_query_deferred_once "town" (by decide) [RunEv.created]).1 (by decide),
   (initial_query_deferred_once "town" (by decide)
     [RunEv.created, RunEv.loaded, RunEv.loaded]).2 (by decide)⟩

/-- C5: after attachment, a proximity change record whose
`isFirstChange()` is true (the change supplying the property's initial
value) produces no `setProximity` call at all, while a non-first proximity
change pushes exactly its `currentValue` into the widget. -/
theorem proximity_first_change_guard (w : MapboxGeocoder) (si : Option String)
    (changes : DirectiveChanges) (c : SimpleChange)
    (h : changes.proximity = some c) :
    (c.firstChange = true →
      ∀ v, WidgetCall.setProximity v ∉ ngOnChanges (some w) si changes) ∧
    (c.firstChange = false →
      WidgetCall.setProximity c.currentValue ∈ ngOnChanges (some w) si changes) := by
  constructor
  · intro hf v
    cases hs : changes.searchInput <;> simp [ngOnChanges, h, hf, hs]
  · intro hf
    cases hs : changes.searchInput <;> simp [ngOnChanges, h, hf, hs]

/-- Witness for `proximity_first_change_guard`: a non-first proximity
change forwards its new value. -/
theorem proximity_first_change_guard_witness :
    WidgetCall.setProximity (JsVal.obj "lngLat") ∈
      ngOnChanges (some ⟨[]⟩) none
        ⟨some ⟨JsVal.undef, JsVal.obj "lngLat", false⟩, none⟩ :=
  (proximity_first_change_guard ⟨[]⟩ none
    ⟨some ⟨JsVal.undef, JsVal.obj "lngLat", false⟩, none⟩
    ⟨JsVal.undef, JsVal.obj "lngLat", false⟩ rfl).2 rfl

/-- C6: after attachment, any change record for `searchInput` — first
change included, with no `isFirstChange()` exclusion — makes the directive
query the widget with the current `searchInput` value. -/
theorem searchInput_change_always_queries (w : MapboxGeocoder)
    (si : Option String) (changes : DirectiveChanges) (c : SimpleChange)
    (h : changes.searchInput = some c) :
    WidgetCall.query si ∈ ngOnChanges (some w) si changes := by
  cases hp : changes.proximity with
  | none => simp [ngOnChanges, h, hp]
  | some cp => cases hf : cp.firstChange <;> simp [ngOnChanges, h, hp, hf]

/-- Witness for `searchInput_change_always_queries`: the very first
`searchInput` change already queries. -/
theorem searchInput_change_always_queries_witness :
    WidgetCall.query (some "paris") ∈
      ngOnChanges (some ⟨[]⟩) (some "paris")
        ⟨none, some ⟨JsVal.undef, JsVal.str "paris", true⟩⟩ :=
  searchInput_change_always_queries ⟨[]⟩ (some "paris")
    ⟨none, some ⟨JsVal.undef, JsVal.str "paris", true⟩⟩
    ⟨JsVal.undef, JsVal.str "paris", true⟩ rfl

/-- C7, counterexample to the claim as stated: with neither credential —
no per-instance `accessToken` (`undefined`) and no provider for the
`@Optional() @Inject(MAPBOX_GEOCODER_API_KEY)` token, which Angular then
injects as `null` — the resolution `undefined || null` yields `null`,
which is not `=== undefined` and so survives the stripping loop: the
`accessToken` key is present in the constructor options, with value
`null`, rather than absent. -/
theorem accessToken_absent_injection_counterexample :
    (strippedOptions allUndefInputs JsVal.nullv).lookup "accessToken" =
      some JsVal.nullv := by
  decide

/-- C7, as amended: with a nonempty per-instance token "a" and injected
default "b" the widget receives "a"; with no per-instance token
(`undefined`) and default "b" it receives "b"; with neither — the absent
`@Optional()` injection being `null` — the `accessToken` key is still
present in the stripped options, carrying the value `null` that
`undefined || null` resolves to. -/
theorem accessToken_resolution (i : GeocoderInputs) (a b : String) :
    (i.accessToken = JsVal.str a → a ≠ "" →
      (strippedOptions i (JsVal.str b)).lookup "accessToken" = some (JsVal.str a)) ∧
    (i.accessToken = JsVal.undef →
      (strippedOptions i (JsVal.str b)).lookup "accessToken" = some (JsVal.str b)) ∧
    (i.accessToken = JsVal.undef →
      (strippedOptions i JsVal.nullv).lookup "accessToken" = some JsVal.nullv) := by
  refine ⟨fun h ha => ?_, fun h => ?_, fun h => ?_⟩ <;>
    simp [lookup_accessToken, h, jsOr, JsVal.truthy, *]

/-- Witness for `accessToken_resolution`: the three scenarios at concrete
credentials "A" and "B", the third with the `null` injected default. -/
theorem accessToken_resolution_witness :
    (strippedOptions { allUndefInputs with accessToken := JsVal.str "A" }
        (JsVal.str "B")).lookup "accessToken" = some (JsVal.str "A") ∧
    (strippedOptions allUndefInputs (JsVal.str "B")).lookup "accessToken" =
      some (JsVal.str "B") ∧
    (strippedOptions allUndefInputs JsVal.nullv).lookup "accessToken" =
      some JsVal.nullv :=
  ⟨(accessToken_resolution { allUndefInputs with accessToken := JsVal.str "A" }
      "A" "B").1 rfl (by decide),
   (accessToken_resolution allUndefInputs "A" "B").2.1 rfl,
   (accessToken_resolution allUndefInputs "A" "B").2.2 rfl⟩

/-- `hookEvents` registers exactly the widget event kinds one of whose
outward channels is observed, in the widget's kind order. -/
theorem hookedEvents_eq_kindFilter (events : Observed) :
    hookedEvents events = widgetEventKinds.filter (kindObserved events) := by
  obtain ⟨c, l, rs, r, e, grs, gr, ge⟩ := events
  cases c <;> cases l <;> cases rs <;> cases r <;> cases e <;> cases grs <;>
    cases gr <;> cases ge <;> rfl

/-- C8: the number of `geocoder.on` registrations `hookEvents` performs
equals the number of widget event kinds with at least one subscriber on a
corresponding outward channel, and every registered kind has such a
subscriber — no forwarder is registered for an unobserved kind. -/
theorem forwarder_registration_matches_listeners (events : Observed) :
    (hookedEvents events).length =
      (widgetEventKinds.filter (kindObserved events)).length ∧
    ∀ kind, kind ∈ hookedEvents events → kindObserved events kind = true := by
  have h := hookedEvents_eq_kindFilter events
  refine ⟨by rw [h], fun kind hk => ?_⟩
  rw [h] at hk
  exact List.of_mem_filter hk

/-- Witness for `forwarder_registration_matches_listeners`: only the
legacy `result` channel observed — one registration, for an observed kind. -/
theorem forwarder_registration_matches_listeners_witness :
    (hookedEvents ⟨false, false, false, true, false, false, false, false⟩).length =
      (widgetEventKinds.filter
        (kindObserved ⟨false, false, false, true, false, false, false, false⟩)).length ∧
    kindObserved ⟨false, false, false, true, false, false, false, false⟩ "result" = true :=
  ⟨(forwarder_registration_matches_listeners
      ⟨false, false, false, true, false, false, false, false⟩).1,
   (forwarder_registration_matches_listeners
      ⟨false, false, false, true, false, false, false, false⟩).2 "result" (by decide)⟩

/-- C9: the stripped constructor options always expose the `marker` key —
the `marker` input's type `boolean | Marker` (declared default `false`)
has no undefined inhabitant, so the entry survives the stripping loop for
every input record. -/
theorem marker_key_always_present (i : GeocoderInputs) (apiKey : JsVal) :
    (strippedOptions i apiKey).lookup "marker" = some i.marker.toJs ∧
      i.marker.toJs ≠ JsVal.undef := by
  refine ⟨lookup_marker i apiKey, ?_⟩
  cases i.marker <;> simp [MarkerVal.toJs]

/-- Witness for `marker_key_always_present`: with nothing bound, the
widget still receives the explicit default `marker: false`. -/
theorem marker_key_always_present_witness :
    (strippedOptions allUndefInputs JsVal.undef).lookup "marker" =
      some (JsVal.bool false) :=
  (marker_key_always_present allUndefInputs JsVal.undef).1

/-- C10: credential fallback triggers on any falsy per-instance token, not
only on absence — an explicitly supplied empty-string `accessToken` is
replaced by the injected default credential in the constructor options. -/
theorem empty_accessToken_falls_back (i : GeocoderInputs) (b : String)
    (h : i.accessToken = JsVal.str "") :
    (strippedOptions i (JsVal.str b)).lookup "accessToken" = some (JsVal.str b) := by
  simp [lookup_accessToken, h, jsOr, JsVal.truthy]

/-- Witness for `empty_accessToken_falls_back`: empty per-instance token,
default "B". -/
theorem empty_accessToken_falls_back_witness :
    (strippedOptions { allUndefInputs with accessToken := JsVal.str "" }
        (JsVal.str "B")).lookup "accessToken" = some (JsVal.str "B") :=
  empty_accessToken_falls_back
    { allUndefInputs with accessToken := JsVal.str "" } "B" rfl

end NgxGeocoder
